import Mathlib

/-!
Verification of the CwaWeather backend (src/server.js).

The server is a single Express handler `getCityWeather` plus static routing.
We shallowly embed the JSON payloads as Lean structures (absent JSON fields
become `Option`), the normalization loop (lines 94-136 of server.js) as a
pure function returning `Except Unit` (a thrown `TypeError` is `.error ()`),
and the handler's control flow (validation, error classification) as a pure
function from the request parameters and the upstream outcome to the HTTP
response, paired with a flag recording whether the outbound call was reached.
-/

namespace CwaWeather

/-- JavaScript `a || d` for an optional string `a`: the default is taken both
when the field is absent (`undefined`) and when it is the empty string
(falsy in JavaScript). -/
def jsOr (v : Option String) (d : String) : String :=
  match v with
  | none => d
  | some s => if s = "" then d else s

/-- The `parameter` object of one time slot
(`time[i].parameter.parameterName`); `parameterName` may be absent. -/
structure Parameter where
  parameterName : Option String
deriving Repr, DecidableEq

/-- One entry of an element's `time` array; the `parameter` object may be
absent (then `if (value)` in server.js skips the element at this index). -/
structure TimeSlot where
  startTime : String
  endTime : String
  parameter : Option Parameter
deriving Repr, DecidableEq

/-- One entry of `records.location[0].weatherElement`. -/
structure WeatherElement where
  elementName : String
  time : List TimeSlot
deriving Repr, DecidableEq

/-- The forecast object built per time index (server.js lines 98-107). -/
structure Forecast where
  startTime : String
  endTime : String
  weather : String
  rain : String
  minTemp : String
  maxTemp : String
  comfort : String
  windSpeed : String
deriving Repr, DecidableEq

/-- The seeded forecast for time slot `slot0` of element 0
(server.js lines 98-107). -/
def initForecast (slot0 : TimeSlot) : Forecast :=
  { startTime := slot0.startTime
    endTime := slot0.endTime
    weather := "不明"
    rain := "0%"
    minTemp := "N/A"
    maxTemp := "N/A"
    comfort := "不明"
    windSpeed := "0" }

/-- The `switch (element.elementName)` of server.js lines 112-131, applied
when the `parameter` value is present. -/
def applyElement (name : String) (v : Parameter) (f : Forecast) : Forecast :=
  if name = "Wx" then { f with weather := jsOr v.parameterName "不明" }
  else if name = "PoP" then { f with rain := jsOr v.parameterName "0" ++ "%" }
  else if name = "MinT" then { f with minTemp := jsOr v.parameterName "N/A" ++ "°C" }
  else if name = "MaxT" then { f with maxTemp := jsOr v.parameterName "N/A" ++ "°C" }
  else if name = "CI" then { f with comfort := jsOr v.parameterName "不明" }
  else if name = "WS" then { f with windSpeed := jsOr v.parameterName "0" }
  else f

/-- One iteration of `weatherElements.forEach` (server.js lines 109-133):
reading `element.time[i].parameter` throws a `TypeError` when `time[i]` is
out of range (`.error ()`); otherwise an absent `parameter` leaves the
forecast unchanged, and a present one goes through the name switch. -/
def updateFromElement (i : Nat) (e : WeatherElement) (f : Forecast) :
    Except Unit Forecast :=
  match e.time[i]? with
  | none => Except.error ()
  | some slot =>
    match slot.parameter with
    | none => Except.ok f
    | some v => Except.ok (applyElement e.elementName v f)

/-- `weatherElements.forEach` at index `i`: the element switch is applied to
the running forecast element by element, in order, and a thrown `TypeError`
aborts the whole request. -/
def foldElements (i : Nat) (elements : List WeatherElement) (f : Forecast) :
    Except Unit Forecast :=
  match elements with
  | [] => Except.ok f
  | e :: rest =>
    match updateFromElement i e f with
    | Except.error u => Except.error u
    | Except.ok g => foldElements i rest g

/-- The body of the `for` loop at one index `i`: seed the forecast from
element 0's slot, then fold the element switch over all elements in order. -/
def mkForecast (elements : List WeatherElement) (i : Nat) (slot0 : TimeSlot) :
    Except Unit Forecast :=
  foldElements i elements (initForecast slot0)

/-- The `for (let i = 0; i < timeCount; i++)` loop: `slots` enumerates
element 0's time array and `i` is the current index, so the pairs visited
are exactly `(i, weatherElements[0].time[i])` for `i < timeCount`. -/
def normalizeAux (elements : List WeatherElement) (slots : List TimeSlot)
    (i : Nat) : Except Unit (List Forecast) :=
  match slots with
  | [] => Except.ok []
  | s :: rest =>
    match mkForecast elements i s with
    | Except.error u => Except.error u
    | Except.ok f =>
      match normalizeAux elements rest (i + 1) with
      | Except.error u => Except.error u
      | Except.ok fs => Except.ok (f :: fs)

/-- Server.js lines 94-136: `timeCount = weatherElements[0].time.length`
(a `TypeError` when the array is empty), then the loop building
`weatherData.forecasts` in time order. -/
def normalizeForecasts (elements : List WeatherElement) :
    Except Unit (List Forecast) :=
  match elements with
  | [] => Except.error ()
  | e0 :: _ => normalizeAux elements e0.time 0

/-- One entry of the `CITIES` registry (server.js lines 14-21). -/
structure City where
  id : String
  name : String
  displayName : String
deriving Repr, DecidableEq

/-- The `CITIES` object, as an ordered association list keyed by the city
code (JavaScript objects preserve string-key insertion order, which is what
`Object.keys` / `Object.values` enumerate). -/
def CITIES : List (String × City) :=
  [ ("taipei", ⟨"taipei", "臺北市", "台北市"⟩)
  , ("newtaipei", ⟨"newtaipei", "新北市", "新北市"⟩)
  , ("taoyuan", ⟨"taoyuan", "桃園市", "桃園市"⟩)
  , ("taichung", ⟨"taichung", "臺中市", "台中市"⟩)
  , ("tainan", ⟨"tainan", "臺南市", "台南市"⟩)
  , ("kaohsiung", ⟨"kaohsiung", "高雄市", "高雄市"⟩) ]

/-- The property names the object literal `CITIES` inherits from
`Object.prototype`; accessing any of them yields a truthy value (a built-in
function, or `Object.prototype` itself for `__proto__`), so
`!CITIES[city]` at line 37 does NOT reject these city strings. -/
def objectProtoProps : List String :=
  ["constructor", "__proto__", "toString", "toLocaleString", "valueOf",
   "hasOwnProperty", "isPrototypeOf", "propertyIsEnumerable",
   "__defineGetter__", "__defineSetter__", "__lookupGetter__",
   "__lookupSetter__"]

/-- The JavaScript property access `CITIES[city]`: one of the six own
entries, a truthy value inherited from `Object.prototype`, or `undefined`
(falsy, the only case line 37 rejects). -/
inductive CityAccess where
  | own (c : City)
  | proto
  | undef
deriving Repr, DecidableEq

def cityAccess (city : String) : CityAccess :=
  match CITIES.lookup city with
  | some c => CityAccess.own c
  | none =>
    if city ∈ objectProtoProps then CityAccess.proto else CityAccess.undef

/-- The later reads of `CITIES[city].displayName` (lines 77 and 85):
inherited `Object.prototype` values are functions or objects with no
`displayName` property, so the read yields `undefined`. -/
def CityAccess.displayNameProp : CityAccess → Option String
  | CityAccess.own c => some c.displayName
  | CityAccess.proto => none
  | CityAccess.undef => none

/-- A JavaScript template literal interpolation: `undefined` prints as the
string "undefined". -/
def jsTemplate (v : Option String) : String :=
  match v with
  | some s => s
  | none => "undefined"

/-- `records.location[k]`: the `weatherElement` array may be absent, in which
case line 89's `locationData.weatherElement[0]` (the index is applied before
any optional chaining) throws a `TypeError`. An array entry that is not an
object of this shape (e.g. a number) reads `weatherElement` as `undefined`
and is modelled by `weatherElement = none`. -/
structure LocationData where
  weatherElement : Option (List WeatherElement)
deriving Repr, DecidableEq

/-- The JSON value of `records.location` when it is present and truthy: a
proper array, or a truthy non-array (malformed) value with no numeric
`length` property and no index-0 property, such as a plain object. The
latter passes `!records.location` (truthy) and fails `.length === 0`
(`undefined === 0` is false), so it escapes the 404 check; then line 81's
`location[0]` is `undefined` and line 89's `locationData.weatherElement`
throws a `TypeError`. Falsy values (`undefined`, `null`, `""`, `0`) are
modelled by the surrounding `Option` being `none`. -/
inductive LocationValue where
  | arr (locs : List LocationData)
  | nonArray
deriving Repr, DecidableEq

/-- `response.data.records`; the `location` value may be absent or falsy
(`none`). A malformed truthy non-object `records` reads `.location` as
`undefined` and behaves like `location = none`, so `Option Records` covers
it. -/
structure Records where
  location : Option LocationValue
  datasetDescription : Option String
deriving Repr, DecidableEq

/-- `response.data` of a successful upstream call; `records` may be absent. -/
structure ResponseData where
  records : Option Records
deriving Repr, DecidableEq

/-- The body of a non-2xx upstream response: the `message` field server.js
reads (with a fallback), plus the rest of the JSON body, kept abstract as a
string so that "the body verbatim" is meaningful. -/
structure ErrorBody where
  message : Option String
  rest : String
deriving Repr, DecidableEq

/-- The outcome of the `axios.get` call at server.js lines 59-67: a 2xx
response with a JSON body, a non-2xx response (axios throws with
`error.response` set), or a network-level failure (axios throws with no
`error.response`). -/
inductive UpstreamResult where
  | success (data : ResponseData)
  | httpError (status : Nat) (body : ErrorBody)
  | networkError
deriving Repr, DecidableEq

/-- The `weatherData` object (server.js lines 84-91). `city` is the read of
`CITIES[city].displayName`: it is `undefined` when the city string named an
inherited `Object.prototype` property, and `JSON.stringify` then drops the
key, so the field is an `Option`. -/
structure WeatherData where
  city : Option String
  cityId : String
  updateTime : Option String
  forecastTime : Option String
  forecasts : List Forecast
deriving Repr, DecidableEq

/-- The JSON body `getCityWeather` sends, one constructor per `res.json`
site in server.js. -/
inductive ResponseBody where
  | invalidCity (error message : String) (validCities : List (String × String))
  | configError (error message : String)
  | notFound (error message : String)
  | ok (data : WeatherData)
  | upstreamError (error message : String) (details : ErrorBody)
  | serverError (error message : String)
deriving Repr, DecidableEq

/-- An HTTP response: status code plus JSON body. -/
structure HandlerResponse where
  status : Nat
  body : ResponseBody
deriving Repr, DecidableEq

/-- Line 89: `locationData.weatherElement[0]?.time?.[0]?.startTime || null`,
evaluated once `weatherElement` is known to be present (otherwise the
expression throws before the optional chain starts). An empty `startTime`
string is falsy, so it also yields `null`. -/
def forecastTimeOf (elements : List WeatherElement) : Option String :=
  match elements with
  | [] => none
  | e0 :: _ =>
    match e0.time with
    | [] => none
    | s :: _ => if s.startTime = "" then none else some s.startTime

/-- The handler `getCityWeather` (server.js lines 32-158) as a pure function
of the `:city` parameter, the configured `CWA_API_KEY` (absent or a string,
the empty string being falsy at line 49), and the upstream outcome. The
second component records whether control reached the outbound `axios.get`
call. Line 37's `!CITIES[city]` is the falsiness of the property access
`cityAccess city`, which is falsy only for `undef`: an inherited
`Object.prototype` name passes validation and flows on. -/
def handleWeather (city : String) (apiKey : Option String)
    (upstream : UpstreamResult) : HandlerResponse × Bool :=
  let acc := cityAccess city
  if acc = CityAccess.undef then
    (⟨400, ResponseBody.invalidCity "無效的城市代碼"
        ("城市代碼必須是: " ++ String.intercalate ", " (CITIES.map Prod.fst))
        (CITIES.map (fun p => (p.2.id, p.2.displayName)))⟩, false)
  else
    if jsOr apiKey "" = "" then
      (⟨500, ResponseBody.configError "伺服器設定錯誤"
          "請在 .env 檔案中設定 CWA_API_KEY"⟩, false)
    else
      match upstream with
      | UpstreamResult.networkError =>
        (⟨500, ResponseBody.serverError "伺服器錯誤" "無法取得天氣資料，請稍後再試"⟩, true)
      | UpstreamResult.httpError status body =>
        (⟨status, ResponseBody.upstreamError "CWA API 錯誤"
            (jsOr body.message "無法取得天氣資料") body⟩, true)
      | UpstreamResult.success data =>
        match data.records with
        | none =>
          (⟨404, ResponseBody.notFound "查無資料"
              ("無法取得 " ++ jsTemplate acc.displayNameProp ++ " 的天氣資料")⟩, true)
        | some records =>
          match records.location with
          | none =>
            (⟨404, ResponseBody.notFound "查無資料"
                ("無法取得 " ++ jsTemplate acc.displayNameProp ++ " 的天氣資料")⟩, true)
          | some (LocationValue.arr []) =>
            (⟨404, ResponseBody.notFound "查無資料"
                ("無法取得 " ++ jsTemplate acc.displayNameProp ++ " 的天氣資料")⟩, true)
          | some LocationValue.nonArray =>
            (⟨500, ResponseBody.serverError "伺服器錯誤"
                "無法取得天氣資料，請稍後再試"⟩, true)
          | some (LocationValue.arr (loc :: _)) =>
            match loc.weatherElement with
            | none =>
              (⟨500, ResponseBody.serverError "伺服器錯誤"
                  "無法取得天氣資料，請稍後再試"⟩, true)
            | some elements =>
              match normalizeForecasts elements with
              | Except.error _ =>
                (⟨500, ResponseBody.serverError "伺服器錯誤"
                    "無法取得天氣資料，請稍後再試"⟩, true)
              | Except.ok forecasts =>
                (⟨200, ResponseBody.ok
                    { city := acc.displayNameProp
                      cityId := city
                      updateTime := records.datasetDescription
                      forecastTime := forecastTimeOf elements
                      forecasts := forecasts }⟩, true)

/-! Supporting lemmas about the normalizer. -/

theorem applyElement_startTime (name : String) (v : Parameter) (f : Forecast) :
    (applyElement name v f).startTime = f.startTime := by
  unfold applyElement
  split_ifs <;> rfl

theorem applyElement_endTime (name : String) (v : Parameter) (f : Forecast) :
    (applyElement name v f).endTime = f.endTime := by
  unfold applyElement
  split_ifs <;> rfl

theorem updateFromElement_ok (i : Nat) (e : WeatherElement) (f : Forecast)
    (h : i < e.time.length) :
    ∃ g, updateFromElement i e f = Except.ok g
      ∧ g.startTime = f.startTime ∧ g.endTime = f.endTime := by
  unfold updateFromElement
  rw [List.getElem?_eq_getElem h]
  cases hp : (e.time[i]).parameter with
  | none => exact ⟨f, by simp [hp], rfl, rfl⟩
  | some v =>
    exact ⟨applyElement e.elementName v f, by simp [hp],
      applyElement_startTime _ _ _, applyElement_endTime _ _ _⟩

theorem foldElements_ok (i : Nat) (elements : List WeatherElement)
    (f : Forecast) (h : ∀ e ∈ elements, i < e.time.length) :
    ∃ g, foldElements i elements f = Except.ok g
      ∧ g.startTime = f.startTime ∧ g.endTime = f.endTime := by
  induction elements generalizing f with
  | nil => exact ⟨f, rfl, rfl, rfl⟩
  | cons e rest ih =>
    obtain ⟨g, hg, hs, he⟩ :=
      updateFromElement_ok i e f (h e (List.mem_cons_self e rest))
    obtain ⟨g2, hg2, hs2, he2⟩ :=
      ih g (fun x hx => h x (List.mem_cons_of_mem e hx))
    refine ⟨g2, ?_, by rw [hs2, hs], by rw [he2, he]⟩
    unfold foldElements
    rw [hg]
    exact hg2

theorem mkForecast_ok (elements : List WeatherElement) (i : Nat)
    (slot0 : TimeSlot) (h : ∀ e ∈ elements, i < e.time.length) :
    ∃ g, mkForecast elements i slot0 = Except.ok g
      ∧ g.startTime = slot0.startTime ∧ g.endTime = slot0.endTime := by
  obtain ⟨g, hg, hs, he⟩ := foldElements_ok i elements (initForecast slot0) h
  exact ⟨g, hg, hs, he⟩

theorem normalizeAux_ok (elements : List WeatherElement)
    (slots : List TimeSlot) (i : Nat)
    (h : ∀ e ∈ elements, i + slots.length ≤ e.time.length) :
    ∃ fs, normalizeAux elements slots i = Except.ok fs
      ∧ fs.map Forecast.startTime = slots.map TimeSlot.startTime
      ∧ fs.map Forecast.endTime = slots.map TimeSlot.endTime := by
  induction slots generalizing i with
  | nil => exact ⟨[], rfl, rfl, rfl⟩
  | cons s rest ih =>
    obtain ⟨g, hg, hs, he⟩ := mkForecast_ok elements i s (fun e he => by
      have := h e he
      simp only [List.length_cons] at this
      omega)
    obtain ⟨fs, hfs, hmap1, hmap2⟩ := ih (i + 1) (fun e he => by
      have := h e he
      simp only [List.length_cons] at this
      omega)
    refine ⟨g :: fs, ?_, ?_, ?_⟩
    · unfold normalizeAux
      rw [hg, hfs]
    · simp [hmap1, hs]
    · simp [hmap2, he]

theorem normalizeForecasts_ok (e0 : WeatherElement)
    (es : List WeatherElement)
    (h : ∀ e ∈ e0 :: es, e0.time.length ≤ e.time.length) :
    ∃ fs, normalizeForecasts (e0 :: es) = Except.ok fs
      ∧ fs.length = e0.time.length
      ∧ fs.map Forecast.startTime = e0.time.map TimeSlot.startTime
      ∧ fs.map Forecast.endTime = e0.time.map TimeSlot.endTime := by
  obtain ⟨fs, hfs, hmap1, hmap2⟩ :=
    normalizeAux_ok (e0 :: es) e0.time 0 (fun e he => by
      have := h e he
      omega)
  refine ⟨fs, hfs, ?_, hmap1, hmap2⟩
  have := congrArg List.length hmap1
  simpa using this

/-! Claim C1. -/

/-- A ragged payload: element 0 has one time slot, but `PoP` has none, so
`element.time[0].parameter` throws inside the loop. -/
def c1elems : List WeatherElement :=
  [⟨"Wx", [⟨"s", "e", none⟩]⟩, ⟨"PoP", []⟩]

def c1data : ResponseData :=
  ⟨some ⟨some (LocationValue.arr [⟨some c1elems⟩]), some "upd"⟩⟩

/-- C1: the claim as stated is false: this upstream payload has a non-empty
`records.location` and a non-empty `weatherElement` array on its first
location, yet the handler produces the generic 500 error and no forecasts
sequence at all (the second element's time series is shorter than the
first's, so the loop throws). -/
theorem claim1_cex :
    (handleWeather "taipei" (some "k") (UpstreamResult.success c1data)).1
      = ⟨500, ResponseBody.serverError "伺服器錯誤" "無法取得天氣資料，請稍後再試"⟩
    ∧ normalizeForecasts c1elems = Except.error ()
    ∧ c1elems ≠ [] :=
  ⟨rfl, rfl, by decide⟩

/-- C1 (amended): when additionally every weather element's time series is
at least as long as element 0's, the handler succeeds and its forecasts
sequence has length equal to element 0's time-series length, with each
period's startTime/endTime taken from element 0's i-th slot, in input time
order (stated positionally via `List.map`). -/
theorem claim1_thm (city key : String) (cityInfo : City) (data : ResponseData)
    (records : Records) (loc : LocationData) (locs : List LocationData)
    (e0 : WeatherElement) (es : List WeatherElement)
    (hcity : CITIES.lookup city = some cityInfo) (hkey : key ≠ "")
    (hrec : data.records = some records)
    (hloc : records.location = some (LocationValue.arr (loc :: locs)))
    (helem : loc.weatherElement = some (e0 :: es))
    (hlen : ∀ e ∈ e0 :: es, e0.time.length ≤ e.time.length) :
    ∃ fs, (handleWeather city (some key) (UpstreamResult.success data)).1
        = ⟨200, ResponseBody.ok
            { city := some cityInfo.displayName
              cityId := city
              updateTime := records.datasetDescription
              forecastTime := forecastTimeOf (e0 :: es)
              forecasts := fs }⟩
      ∧ fs.length = e0.time.length
      ∧ fs.map Forecast.startTime = e0.time.map TimeSlot.startTime
      ∧ fs.map Forecast.endTime = e0.time.map TimeSlot.endTime := by
  obtain ⟨fs, hfs, hlen2, h1, h2⟩ := normalizeForecasts_ok e0 es hlen
  refine ⟨fs, ?_, hlen2, h1, h2⟩
  simp [handleWeather, cityAccess, CityAccess.displayNameProp, hcity, jsOr,
    hkey, hrec, hloc, helem, hfs]

def w1e0 : WeatherElement :=
  ⟨"Wx", [⟨"2024-01-01 06:00", "2024-01-01 18:00", some ⟨some "多雲"⟩⟩]⟩

def w1data : ResponseData :=
  ⟨some ⟨some (LocationValue.arr [⟨some [w1e0]⟩]), some "upd"⟩⟩

/-- C1 (amended) at a concrete payload with one element and one time slot. -/
theorem claim1_witness :
    ∃ fs, (handleWeather "taipei" (some "k") (UpstreamResult.success w1data)).1
        = ⟨200, ResponseBody.ok
            { city := some "台北市"
              cityId := "taipei"
              updateTime := some "upd"
              forecastTime := some "2024-01-01 06:00"
              forecasts := fs }⟩
      ∧ fs.length = 1
      ∧ fs.map Forecast.startTime = ["2024-01-01 06:00"]
      ∧ fs.map Forecast.endTime = ["2024-01-01 18:00"] :=
  claim1_thm "taipei" "k" ⟨"taipei", "臺北市", "台北市"⟩ w1data
    ⟨some (LocationValue.arr [⟨some [w1e0]⟩]), some "upd"⟩ ⟨some [w1e0]⟩ []
    w1e0 [] rfl (by decide) rfl rfl rfl (by decide)

/-! Claim C2. -/

/-- C2: when an element's i-th slot has a present parameter value, the
element name selects the target field exactly per the table (Wx→weather,
PoP→rain with "%" suffix, MinT/MaxT→temps with "°C" suffix, CI→comfort,
WS→windSpeed, each with its JavaScript-falsy default), and any element with
a name outside the table leaves the forecast unchanged. -/
theorem claim2_thm (e : WeatherElement) (i : Nat) (f : Forecast)
    (slot : TimeSlot) (v : Parameter)
    (hslot : e.time[i]? = some slot) (hv : slot.parameter = some v) :
    updateFromElement i e f = Except.ok (applyElement e.elementName v f)
    ∧ (e.elementName = "Wx" →
        applyElement e.elementName v f
          = { f with weather := jsOr v.parameterName "不明" })
    ∧ (e.elementName = "PoP" →
        applyElement e.elementName v f
          = { f with rain := jsOr v.parameterName "0" ++ "%" })
    ∧ (e.elementName = "MinT" →
        applyElement e.elementName v f
          = { f with minTemp := jsOr v.parameterName "N/A" ++ "°C" })
    ∧ (e.elementName = "MaxT" →
        applyElement e.elementName v f
          = { f with maxTemp := jsOr v.parameterName "N/A" ++ "°C" })
    ∧ (e.elementName = "CI" →
        applyElement e.elementName v f
          = { f with comfort := jsOr v.parameterName "不明" })
    ∧ (e.elementName = "WS" →
        applyElement e.elementName v f
          = { f with windSpeed := jsOr v.parameterName "0" })
    ∧ (e.elementName ∉ (["Wx", "PoP", "MinT", "MaxT", "CI", "WS"] : List String) →
        applyElement e.elementName v f = f) := by
  refine ⟨by simp [updateFromElement, hslot, hv], ?_, ?_, ?_, ?_, ?_, ?_, ?_⟩
  · intro h; rw [h]; rfl
  · intro h; rw [h]; rfl
  · intro h; rw [h]; rfl
  · intro h; rw [h]; rfl
  · intro h; rw [h]; rfl
  · intro h; rw [h]; rfl
  · intro h
    simp only [List.mem_cons, List.not_mem_nil, or_false, not_or] at h
    obtain ⟨h1, h2, h3, h4, h5, h6⟩ := h
    simp [applyElement, h1, h2, h3, h4, h5, h6]

def w2elem : WeatherElement := ⟨"PoP", [⟨"s", "e", some ⟨some "20"⟩⟩]⟩

def w2fc : Forecast := initForecast ⟨"s", "e", some ⟨some "20"⟩⟩

/-- C2 at a concrete `PoP` element with value "20". -/
theorem claim2_witness :
    updateFromElement 0 w2elem w2fc
      = Except.ok (applyElement "PoP" ⟨some "20"⟩ w2fc)
    ∧ (("PoP" : String) = "Wx" →
        applyElement "PoP" ⟨some "20"⟩ w2fc
          = { w2fc with weather := jsOr (some "20") "不明" })
    ∧ (("PoP" : String) = "PoP" →
        applyElement "PoP" ⟨some "20"⟩ w2fc
          = { w2fc with rain := jsOr (some "20") "0" ++ "%" })
    ∧ (("PoP" : String) = "MinT" →
        applyElement "PoP" ⟨some "20"⟩ w2fc
          = { w2fc with minTemp := jsOr (some "20") "N/A" ++ "°C" })
    ∧ (("PoP" : String) = "MaxT" →
        applyElement "PoP" ⟨some "20"⟩ w2fc
          = { w2fc with maxTemp := jsOr (some "20") "N/A" ++ "°C" })
    ∧ (("PoP" : String) = "CI" →
        applyElement "PoP" ⟨some "20"⟩ w2fc
          = { w2fc with comfort := jsOr (some "20") "不明" })
    ∧ (("PoP" : String) = "WS" →
        applyElement "PoP" ⟨some "20"⟩ w2fc
          = { w2fc with windSpeed := jsOr (some "20") "0" })
    ∧ (("PoP" : String) ∉ (["Wx", "PoP", "MinT", "MaxT", "CI", "WS"] : List String) →
        applyElement "PoP" ⟨some "20"⟩ w2fc = w2fc) :=
  claim2_thm w2elem 0 w2fc ⟨"s", "e", some ⟨some "20"⟩⟩ ⟨some "20"⟩ rfl rfl

/-! Claim C3. -/

/-- C3: the claim as stated is false: a `MinT` element whose i-th slot has
no `parameter` object at all leaves `minTemp` at the seeded "N/A", not at
the documented "N/A°C". -/
theorem claim3_cex :
    normalizeForecasts [⟨"MinT", [⟨"s", "e", none⟩]⟩]
      = Except.ok [{ startTime := "s", endTime := "e", weather := "不明",
                     rain := "0%", minTemp := "N/A", maxTemp := "N/A",
                     comfort := "不明", windSpeed := "0" }]
    ∧ ("N/A" : String) ≠ "N/A°C" :=
  ⟨rfl, by decide⟩

/-- C3 (amended): when the `parameter` object is present but its
`parameterName` is missing or empty, the targeted field gets the documented
default ("不明", "0%", "N/A°C", "0"); when the `parameter` object is absent
entirely, the element is skipped and the period keeps the seeded defaults,
which for minTemp/maxTemp are "N/A" without the "°C" suffix (the other
seeded fields coincide with the documented defaults). -/
theorem claim3_thm (e : WeatherElement) (i : Nat) (f : Forecast)
    (slot : TimeSlot) (hslot : e.time[i]? = some slot) :
    (slot.parameter = none → updateFromElement i e f = Except.ok f)
    ∧ (∀ v, slot.parameter = some v →
        (v.parameterName = none ∨ v.parameterName = some "") →
        (e.elementName = "Wx" → (applyElement e.elementName v f).weather = "不明")
        ∧ (e.elementName = "PoP" → (applyElement e.elementName v f).rain = "0%")
        ∧ (e.elementName = "MinT" → (applyElement e.elementName v f).minTemp = "N/A°C")
        ∧ (e.elementName = "MaxT" → (applyElement e.elementName v f).maxTemp = "N/A°C")
        ∧ (e.elementName = "CI" → (applyElement e.elementName v f).comfort = "不明")
        ∧ (e.elementName = "WS" → (applyElement e.elementName v f).windSpeed = "0"))
    ∧ (initForecast slot).weather = "不明"
    ∧ (initForecast slot).rain = "0%"
    ∧ (initForecast slot).minTemp = "N/A"
    ∧ (initForecast slot).maxTemp = "N/A"
    ∧ (initForecast slot).comfort = "不明"
    ∧ (initForecast slot).windSpeed = "0" := by
  refine ⟨?_, ?_, rfl, rfl, rfl, rfl, rfl, rfl⟩
  · intro hp
    simp [updateFromElement, hslot, hp]
  · intro v hv hname
    have hd : jsOr v.parameterName "不明" = "不明" ∧ jsOr v.parameterName "0" = "0"
        ∧ jsOr v.parameterName "N/A" = "N/A" := by
      rcases hname with h | h <;> rw [h] <;> exact ⟨rfl, rfl, rfl⟩
    refine ⟨?_, ?_, ?_, ?_, ?_, ?_⟩ <;> intro h <;> rw [h] <;>
      simp [applyElement, hd.1, hd.2.1, hd.2.2]

def w3slot : TimeSlot := ⟨"s", "e", some ⟨some ""⟩⟩

def w3elem : WeatherElement := ⟨"MinT", [w3slot]⟩

/-- C3 (amended) at a concrete `MinT` element with an empty parameterName. -/
theorem claim3_witness :
    (w3slot.parameter = none →
      updateFromElement 0 w3elem (initForecast w3slot) = Except.ok (initForecast w3slot))
    ∧ (∀ v, w3slot.parameter = some v →
        (v.parameterName = none ∨ v.parameterName = some "") →
        (("MinT" : String) = "Wx" →
          (applyElement "MinT" v (initForecast w3slot)).weather = "不明")
        ∧ (("MinT" : String) = "PoP" →
          (applyElement "MinT" v (initForecast w3slot)).rain = "0%")
        ∧ (("MinT" : String) = "MinT" →
          (applyElement "MinT" v (initForecast w3slot)).minTemp = "N/A°C")
        ∧ (("MinT" : String) = "MaxT" →
          (applyElement "MinT" v (initForecast w3slot)).maxTemp = "N/A°C")
        ∧ (("MinT" : String) = "CI" →
          (applyElement "MinT" v (initForecast w3slot)).comfort = "不明")
        ∧ (("MinT" : String) = "WS" →
          (applyElement "MinT" v (initForecast w3slot)).windSpeed = "0"))
    ∧ (initForecast w3slot).weather = "不明"
    ∧ (initForecast w3slot).rain = "0%"
    ∧ (initForecast w3slot).minTemp = "N/A"
    ∧ (initForecast w3slot).maxTemp = "N/A"
    ∧ (initForecast w3slot).comfort = "不明"
    ∧ (initForecast w3slot).windSpeed = "0" :=
  claim3_thm w3elem 0 (initForecast w3slot) w3slot rfl

/-! Claim C4. -/

def c4data : ResponseData :=
  ⟨some ⟨some (LocationValue.arr [⟨none⟩]), some "upd"⟩⟩

/-- C4: the claim as stated is false: a payload with a non-empty
`records.location` whose first location has no `weatherElement` at all makes
line 89's `locationData.weatherElement[0]` throw (the `[0]` index is applied
before the optional chain), so the handler answers with the generic 500
server error, not with the 404 not-found outcome. -/
theorem claim4_cex :
    (handleWeather "taipei" (some "k") (UpstreamResult.success c4data)).1
      = ⟨500, ResponseBody.serverError "伺服器錯誤" "無法取得天氣資料，請稍後再試"⟩
    ∧ (500 : Nat) ≠ 404 :=
  ⟨rfl, by decide⟩

/-- C4 (amended): when the first location lacks a `weatherElement` array
entirely, the request resolves to the generic internal-error outcome
(status 500 with the server-error envelope), not to the not-found outcome,
and no partial forecast list is returned (the body carries no forecasts). -/
theorem claim4_thm (city key : String) (cityInfo : City) (data : ResponseData)
    (records : Records) (loc : LocationData) (locs : List LocationData)
    (hcity : CITIES.lookup city = some cityInfo) (hkey : key ≠ "")
    (hrec : data.records = some records)
    (hloc : records.location = some (LocationValue.arr (loc :: locs)))
    (helem : loc.weatherElement = none) :
    handleWeather city (some key) (UpstreamResult.success data)
      = (⟨500, ResponseBody.serverError "伺服器錯誤" "無法取得天氣資料，請稍後再試"⟩, true) := by
  simp [handleWeather, cityAccess, hcity, jsOr, hkey, hrec, hloc, helem]

/-- C4 (amended) at the concrete payload of the counterexample. -/
theorem claim4_witness :
    handleWeather "taipei" (some "k") (UpstreamResult.success c4data)
      = (⟨500, ResponseBody.serverError "伺服器錯誤" "無法取得天氣資料，請稍後再試"⟩, true) :=
  claim4_thm "taipei" "k" ⟨"taipei", "臺北市", "台北市"⟩ c4data
    ⟨some (LocationValue.arr [⟨none⟩]), some "upd"⟩ ⟨none⟩ []
    rfl (by decide) rfl rfl rfl

/-! Claim C5. -/

/-- C5: for every registered city code, when the configured API key is
absent (`undefined` or the falsy empty string), the handler answers 500
with the configuration-error envelope, and the outbound upstream call is
not reached (the flag is `false` and the response is the same for every
possible upstream outcome `u`). -/
theorem claim5_thm (city : String) (cityInfo : City) (apiKey : Option String)
    (u : UpstreamResult) (hcity : CITIES.lookup city = some cityInfo)
    (hkey : apiKey = none ∨ apiKey = some "") :
    handleWeather city apiKey u
      = (⟨500, ResponseBody.configError "伺服器設定錯誤" "請在 .env 檔案中設定 CWA_API_KEY"⟩,
         false) := by
  rcases hkey with h | h <;> subst h <;>
    simp [handleWeather, cityAccess, hcity, jsOr]

/-- C5 at the city "taipei" with an undefined key and a concrete upstream
outcome. -/
theorem claim5_witness :
    handleWeather "taipei" none (UpstreamResult.success w1data)
      = (⟨500, ResponseBody.configError "伺服器設定錯誤" "請在 .env 檔案中設定 CWA_API_KEY"⟩,
         false) :=
  claim5_thm "taipei" ⟨"taipei", "臺北市", "台北市"⟩ none
    (UpstreamResult.success w1data) rfl (Or.inl rfl)

/-! Claim C6. -/

/-- C6: the code contradicts the claim (and the spec's registry contract):
"constructor" is not one of the six registered codes, yet `CITIES[city]`
finds the truthy inherited `Object.prototype.constructor`, so line 37's
`!CITIES[city]` does not fire. Instead of the 400 invalid-city envelope the
handler proceeds past validation: with a configured key it reaches the
outbound call (flag `true`; generic 500 on a network failure), and with an
absent key it returns the 500 configuration error. -/
theorem claim6_thm :
    ("constructor" : String) ∉ (["taipei", "newtaipei", "taoyuan", "taichung",
      "tainan", "kaohsiung"] : List String)
    ∧ cityAccess "constructor" = CityAccess.proto
    ∧ (handleWeather "constructor" (some "k") UpstreamResult.networkError).1
        = ⟨500, ResponseBody.serverError "伺服器錯誤" "無法取得天氣資料，請稍後再試"⟩
    ∧ (handleWeather "constructor" (some "k") UpstreamResult.networkError).2 = true
    ∧ (handleWeather "constructor" none UpstreamResult.networkError).1
        = ⟨500, ResponseBody.configError "伺服器設定錯誤" "請在 .env 檔案中設定 CWA_API_KEY"⟩ :=
  ⟨by decide, rfl, rfl, rfl, rfl⟩

/-! Claim C7. -/

/-- C7: the claim as stated is false for malformed `records.location`
values: a truthy non-array (e.g. a plain object) passes both `!location`
and `location.length === 0`, so instead of 404 the request ends in the
TypeError at line 89 and the generic 500. -/
theorem claim7_cex :
    (handleWeather "taipei" (some "k")
        (UpstreamResult.success ⟨some ⟨some LocationValue.nonArray, some "upd"⟩⟩)).1
      = ⟨500, ResponseBody.serverError "伺服器錯誤" "無法取得天氣資料，請稍後再試"⟩
    ∧ (500 : Nat) ≠ 404 :=
  ⟨rfl, by decide⟩

/-- C7 (amended): when the upstream call succeeds at the HTTP level, the
handler answers 404 exactly for a missing/falsy `records`, a missing/falsy
`records.location`, or an empty `location` array; a malformed truthy
non-array `location` instead escapes that check and yields the generic 500
internal error. -/
theorem claim7_thm (city key : String) (cityInfo : City) (data : ResponseData)
    (hcity : CITIES.lookup city = some cityInfo) (hkey : key ≠ "") :
    ((data.records = none
      ∨ ∃ records, data.records = some records
          ∧ (records.location = none
            ∨ records.location = some (LocationValue.arr []))) →
      (handleWeather city (some key) (UpstreamResult.success data)).1.status = 404)
    ∧ (∀ records, data.records = some records →
        records.location = some LocationValue.nonArray →
        (handleWeather city (some key) (UpstreamResult.success data)).1
          = ⟨500, ResponseBody.serverError "伺服器錯誤" "無法取得天氣資料，請稍後再試"⟩) := by
  constructor
  · intro hloc
    rcases hloc with h | ⟨records, hrec, h | h⟩
    · simp [handleWeather, cityAccess, hcity, jsOr, hkey, h]
    · simp [handleWeather, cityAccess, hcity, jsOr, hkey, hrec, h]
    · simp [handleWeather, cityAccess, hcity, jsOr, hkey, hrec, h]
  · intro records hrec h
    simp [handleWeather, cityAccess, hcity, jsOr, hkey, hrec, h]

/-- C7 (amended) at a concrete payload with an empty `location` array. -/
theorem claim7_witness :
    ((((⟨some ⟨some (LocationValue.arr []), some "upd"⟩⟩ : ResponseData).records = none
      ∨ ∃ records,
          (⟨some ⟨some (LocationValue.arr []), some "upd"⟩⟩ : ResponseData).records
            = some records
          ∧ (records.location = none
            ∨ records.location = some (LocationValue.arr []))) →
      (handleWeather "taipei" (some "k")
        (UpstreamResult.success
          ⟨some ⟨some (LocationValue.arr []), some "upd"⟩⟩)).1.status = 404)
    ∧ (∀ records,
        (⟨some ⟨some (LocationValue.arr []), some "upd"⟩⟩ : ResponseData).records
          = some records →
        records.location = some LocationValue.nonArray →
        (handleWeather "taipei" (some "k")
          (UpstreamResult.success
            ⟨some ⟨some (LocationValue.arr []), some "upd"⟩⟩)).1
          = ⟨500, ResponseBody.serverError "伺服器錯誤" "無法取得天氣資料，請稍後再試"⟩)) :=
  claim7_thm "taipei" "k" ⟨"taipei", "臺北市", "台北市"⟩
    ⟨some ⟨some (LocationValue.arr []), some "upd"⟩⟩ rfl (by decide)

/-! Claim C8. -/

/-- C8: when the upstream responds with a non-2xx HTTP status, the handler
mirrors that status code and the `details` field of the envelope is the
upstream response body verbatim. -/
theorem claim8_thm (city key : String) (cityInfo : City) (status : Nat)
    (body : ErrorBody)
    (hcity : CITIES.lookup city = some cityInfo) (hkey : key ≠ "") :
    handleWeather city (some key) (UpstreamResult.httpError status body)
      = (⟨status, ResponseBody.upstreamError "CWA API 錯誤"
            (jsOr body.message "無法取得天氣資料") body⟩, true) := by
  simp [handleWeather, cityAccess, hcity, jsOr, hkey]

/-- C8 at a concrete upstream 401 with a concrete body. -/
theorem claim8_witness :
    handleWeather "tainan" (some "k")
        (UpstreamResult.httpError 401 ⟨some "invalid key", "raw-body"⟩)
      = (⟨401, ResponseBody.upstreamError "CWA API 錯誤" "invalid key"
            ⟨some "invalid key", "raw-body"⟩⟩, true) :=
  claim8_thm "tainan" "k" ⟨"tainan", "臺南市", "台南市"⟩ 401
    ⟨some "invalid key", "raw-body"⟩ rfl (by decide)

/-! Claim C9. -/

/-- C9: the normalization is deterministic and stateless: two runs on the
same raw payload yield structurally equal forecast sequences (same length,
and equal period records position by position). -/
theorem claim9_thm (p q : List WeatherElement) (hpq : p = q)
    (fs1 fs2 : List Forecast)
    (h1 : normalizeForecasts p = Except.ok fs1)
    (h2 : normalizeForecasts q = Except.ok fs2) :
    fs1.length = fs2.length
    ∧ ∀ j (hj : j < fs1.length) (hj2 : j < fs2.length),
        fs1.get ⟨j, hj⟩ = fs2.get ⟨j, hj2⟩ := by
  subst hpq
  rw [h1] at h2
  obtain rfl : fs1 = fs2 := by injection h2
  exact ⟨rfl, fun j hj hj2 => rfl⟩

/-- The forecast list both runs of the normalizer produce on `[w1e0]`. -/
def w9fs : List Forecast :=
  [⟨"2024-01-01 06:00", "2024-01-01 18:00", "多雲", "0%", "N/A", "N/A", "不明", "0"⟩]

/-- C9 on two runs over a concrete payload. -/
theorem claim9_witness :
    w9fs.length = w9fs.length
    ∧ ∀ j (hj : j < w9fs.length) (hj2 : j < w9fs.length),
        w9fs.get ⟨j, hj⟩ = w9fs.get ⟨j, hj2⟩ :=
  claim9_thm [w1e0] [w1e0] rfl w9fs w9fs rfl rfl

/-! Claim C10. -/

/-- C10: the claim as stated is false: "constructor" is not a registered
code, yet with an absent API key the handler returns the 500
configuration error, not 400 — `!CITIES[city]` finds the truthy inherited
`Object.prototype.constructor`, so city validation passes and control
falls through to the key check. -/
theorem claim10_cex :
    (handleWeather "constructor" none UpstreamResult.networkError).1
      = ⟨500, ResponseBody.configError "伺服器設定錯誤" "請在 .env 檔案中設定 CWA_API_KEY"⟩
    ∧ ("constructor" : String) ∉ (["taipei", "newtaipei", "taoyuan",
        "taichung", "tainan", "kaohsiung"] : List String) :=
  ⟨rfl, by decide⟩

/-- C10 (amended): city validation precedes the API-key check: for every
city parameter on which the access `CITIES[city]` is falsy — neither one of
the six registered codes nor an `Object.prototype` property name — the
handler answers 400 for every key configuration (including an absent key),
and never with the configuration-error envelope. City strings naming
inherited `Object.prototype` properties bypass the validation and, with an
absent key, receive the 500 configuration error. -/
theorem claim10_thm (city : String) (apiKey : Option String)
    (u : UpstreamResult)
    (hcity : city ∉ (["taipei", "newtaipei", "taoyuan", "taichung", "tainan",
      "kaohsiung"] : List String))
    (hproto : city ∉ objectProtoProps) :
    (handleWeather city apiKey u).1.status = 400
    ∧ ∀ e m, (handleWeather city apiKey u).1.body ≠ ResponseBody.configError e m := by
  simp only [List.mem_cons, List.not_mem_nil, or_false, not_or] at hcity
  obtain ⟨h1, h2, h3, h4, h5, h6⟩ := hcity
  have hlook : CITIES.lookup city = none := by
    simp [CITIES, List.lookup, beq_eq_false_iff_ne.mpr h1,
      beq_eq_false_iff_ne.mpr h2, beq_eq_false_iff_ne.mpr h3,
      beq_eq_false_iff_ne.mpr h4, beq_eq_false_iff_ne.mpr h5,
      beq_eq_false_iff_ne.mpr h6]
  have hacc : cityAccess city = CityAccess.undef := by
    simp [cityAccess, hlook, hproto]
  refine ⟨by simp [handleWeather, hacc], fun e m => ?_⟩
  simp [handleWeather, hacc]

/-- C10 (amended) at the unregistered city "hsinchu" with an absent key. -/
theorem claim10_witness :
    (handleWeather "hsinchu" none UpstreamResult.networkError).1.status = 400
    ∧ ∀ e m, (handleWeather "hsinchu" none UpstreamResult.networkError).1.body
        ≠ ResponseBody.configError e m :=
  claim10_thm "hsinchu" none UpstreamResult.networkError (by decide) (by decide)

end CwaWeather
